import Mathlib

/-!
# Verification of `django-timezones` (`timezones/fields.py`)

A shallow embedding of the timezone field logic of `timezones/fields.py`:
the `TimeZoneField` identifier coercion path and the `LocalizedDateTimeField`
datetime conversion paths (`get_db_prep_save`, `get_db_prep_lookup`, and the
per-record property setter `set_dtz_field` generated by
`prep_localized_datetime` / `gen_getset_dtz_field`).

Modelling conventions:
* An instant is a `DateTime`: either `naive` (a wall-clock reading with no
  attached zone) or `aware` (a wall-clock reading plus a fixed UTC offset in
  seconds and the attached zone's name) — this matches how a pytz-localized
  Python `datetime` carries a concrete offset.  Wall-clock readings are
  encoded as integer seconds: the number of seconds since the Unix epoch
  that the same numerals would denote if read as UTC.
* A `Tz` models a `pytz` timezone object from the external zone database:
  `utcOffset` gives the zone's UTC offset (seconds east) as a function of a
  UTC timestamp (used by `astimezone`), `localOffset` gives the offset the
  zone attaches to a wall-clock reading (used by `localize`,
  pytz's `is_dst=False` convention).
* Python exceptions are modelled with `Except PyExc`; a bare value `v`
  returned by Python code is `.ok v`.
* The Django persistence adapter is external: a `Connection` is its
  capability probe, `rejects v = true` meaning
  `connection.ops.value_to_db_datetime(v)` raises `ValueError`.
  `DateTimeField.get_db_prep_save` (the `super` call) hands the value to
  that same probe.
-/

set_option autoImplicit false

namespace Timezones

/-- Python exception classes that the modelled code paths can raise. -/
inductive PyExc where
  | valueError
  | attributeError
  | nameError
  | typeError
  | unknownTimeZoneError
  deriving DecidableEq, Repr

/-- A pytz timezone object (external zone-database collaborator).
`utcOffset t` is the offset (seconds east of UTC) in force at UTC time `t`;
`localOffset w` is the offset attached when localizing the wall-clock
reading `w` (pytz `localize` with its default `is_dst=False`). -/
structure Tz where
  name : String
  utcOffset : Int → Int
  localOffset : Int → Int

/-- A Python `datetime.datetime`: naive (no `tzinfo`) or aware (a fixed
offset plus the zone name, as pytz attaches after `localize`/`astimezone`).
`wall` is the wall-clock reading in seconds (see module header). -/
inductive DateTime where
  | naive (wall : Int)
  | aware (wall : Int) (offset : Int) (zname : String)
  deriving DecidableEq, Repr

/-- `tz.localize(naive_wall)`: attach `tz` to a naive wall-clock reading. -/
def Tz.localize (tz : Tz) (w : Int) : DateTime :=
  .aware w (tz.localOffset w) tz.name

/-- `aware_dt.astimezone(tz)` on the aware datetime with wall `w` and
offset `o`: same point in time, re-expressed in `tz`. -/
def astimezoneAware (w o : Int) (tz : Tz) : DateTime :=
  let u := w - o
  .aware (u + tz.utcOffset u) (tz.utcOffset u) tz.name

/-- `dt.replace(tzinfo=None)`: strip the zone, keep the wall clock. -/
def stripTzinfo : DateTime → DateTime
  | .naive w => .naive w
  | .aware w _ _ => .naive w

/-- The absolute point in time (seconds since epoch, UTC) denoted by a
datetime; a naive value is read as a wall clock in the zone `d`. -/
def absSeconds (d : Tz) : DateTime → Int
  | .naive w => w - d.localOffset w
  | .aware w o _ => w - o

/-- The first phase of `LocalizedDateTimeField.get_db_prep_save` (and all of
the conversion in `get_db_prep_lookup`): naive values are localized to the
process default zone, aware values are converted to it
(`fields.py` lines 91–95 and 112–115). -/
def convertToDefault (d : Tz) : DateTime → DateTime
  | .naive w => d.localize w
  | .aware w o _ => astimezoneAware w o d

/-- The persistence adapter's capability probe
(`connection.ops.value_to_db_datetime`): `rejects v = true` means the call
raises `ValueError` on `v`. -/
structure Connection where
  rejects : Option DateTime → Bool

/-- `models.DateTimeField.get_db_prep_save` (the `super` call, external
framework collaborator): hands the value to the adapter, whose probe may
reject it with `ValueError`; with no connection the value passes through. -/
def superGetDbPrepSave (conn : Option Connection) (value : Option DateTime) :
    Except PyExc (Option DateTime) :=
  match conn with
  | none => .ok value
  | some c => if c.rejects value then .error .valueError else .ok value

/-- `LocalizedDateTimeField.get_db_prep_save` (`fields.py` lines 86–105):
convert to the default zone, probe the adapter, strip the zone on a
`ValueError` from the probe, then hand off to the base class.
A `none` value that the probe rejects would hit `value.replace(tzinfo=None)`
on Python `None`, an `AttributeError`. -/
def get_db_prep_save (d : Tz) (conn : Option Connection)
    (value : Option DateTime) : Except PyExc (Option DateTime) :=
  let value := value.map (convertToDefault d)
  match conn with
  | none => superGetDbPrepSave conn value
  | some c =>
    if c.rejects value then
      match value with
      | none => .error .attributeError
      | some v => superGetDbPrepSave conn (some (stripTzinfo v))
    else
      superGetDbPrepSave conn value

/-- `LocalizedDateTimeField.get_db_prep_lookup` (`fields.py` lines 107–116):
reads `value.tzinfo` with no `None` guard, so a `None` value raises
`AttributeError`; otherwise the value is converted to the default zone and
handed to the base class (external, modelled as pass-through). -/
def get_db_prep_lookup (d : Tz) (lookupType : String)
    (value : Option DateTime) : Except PyExc (Option DateTime) :=
  match value with
  | none => .error .attributeError
  | some v =>
    let _ := lookupType
    .ok (some (convertToDefault d v))

/-- What a Dynamic policy's callable can return: a string, a pytz zone
object, or `None`. -/
inductive DynRet where
  | str (s : String)
  | tzv (z : Tz)
  | noneV

/-- The `field.timezone` attribute as `set_dtz_field` dispatches on it:
a pytz zone object (Static), a string naming a sibling field (Relational,
`isinstance(field.timezone, basestring)`), or a callable (Dynamic).
The callable may itself raise. -/
inductive TzSpec where
  | tzobj (z : Tz)
  | relname (s : String)
  | dyn (f : Unit → Except PyExc DynRet)

/-- The process environment: the module-level `default_tz` and
`pytz.timezone` (the external zone database; `db s = none` means
`pytz.timezone(s)` raises, which the source catches with a bare `except`). -/
structure PytzEnv where
  default_tz : Tz
  db : String → Option Tz

/-- `set_dtz_field` (`fields.py` lines 133–171), the property setter
installed by `prep_localized_datetime`/`gen_getset_dtz_field`; the returned
value is what gets stored in the instance's `_datetimezone_<name>` slot.

Faithfulness notes, from the source:
* the Relational branch evaluates `model_instance._get_pk_val()`, but
  `model_instance` is an unbound name in that scope (the instance parameter
  is named `instance`), so the branch raises `NameError` before any lookup;
* in the Dynamic branch, `tz_name = time_zone()` is outside the
  `try`/`except`, so an exception raised by the callable propagates; only
  `pytz.timezone(tz_name)` is guarded, and a `None` result falls back to
  `default_tz`. -/
def set_dtz_field (env : PytzEnv) (fieldTz : TzSpec)
    (dt : Option DateTime) : Except PyExc (Option DateTime) :=
  match dt with
  | none => .ok none
  | some dt0 =>
    let wo : Int × Int :=
      match dt0 with
      | .naive w => (w, env.default_tz.localOffset w)
      | .aware w o _ => (w, o)
    match fieldTz with
    | .relname _ => .error .nameError
    | .dyn f =>
      match f () with
      | .error e => .error e
      | .ok (.str s) =>
        let tz := match env.db s with
          | some z => z
          | none => env.default_tz
        .ok (some (astimezoneAware wo.1 wo.2 tz))
      | .ok (.tzv z) => .ok (some (astimezoneAware wo.1 wo.2 z))
      | .ok .noneV => .ok (some (astimezoneAware wo.1 wo.2 env.default_tz))
    | .tzobj z => .ok (some (astimezoneAware wo.1 wo.2 z))

/-! ## `TimeZoneField` identifier coercion

`TimeZoneField.to_python` (`fields.py` lines 39–43) delegates to
`coerce_timezone_value` from `timezones/utils.py`, a module of this
repository that is not in the sources; it is modelled from the spec. -/

/-- A value flowing through `TimeZoneField`: a raw string or a resolved
pytz zone object (identified here by its canonical name). -/
inductive TzValue where
  | str (s : String)
  | zone (name : String)
  deriving DecidableEq, Repr

/-- Modelled from the spec: `coerce_timezone_value` lives in
`timezones/utils.py`, which is absent from the sources.  Per the spec's
`coerce_identifier` contract: an empty or absent value yields the
representation of absence; a string found in the known-identifier set
resolves to the canonical zone; an unknown string is returned unchanged and
unresolved; an already-resolved zone is returned as an equivalent value. -/
def coerce_timezone_value (known : List String) (v : Option TzValue) :
    Option TzValue :=
  match v with
  | none => none
  | some (.str s) =>
    if s = "" then none
    else if s ∈ known then some (.zone s) else some (.str s)
  | some (.zone z) => some (.zone z)

/-- `models.CharField.to_python` (external framework collaborator): `None`
and strings pass through; any other object is coerced by `smart_unicode`,
which for a pytz zone yields its canonical name string. -/
def charfieldToPython : Option TzValue → Option TzValue
  | some (.zone z) => some (.str z)
  | v => v

/-- `TimeZoneField.to_python` (`fields.py` lines 39–43): base-class
coercion first, then `None` passes through and anything else goes through
`coerce_timezone_value`. -/
def to_python (known : List String) (v : Option TzValue) : Option TzValue :=
  match charfieldToPython v with
  | none => none
  | some w => coerce_timezone_value known (some w)

/-- The configuration error raised when `max_length` cannot hold every
known identifier. -/
inductive ConfigurationError where
  | maxLengthTooSmall (ident : String) (maxLength : Nat)
  deriving DecidableEq, Repr

/-- Modelled from the spec: `validate_timezone_max_length` lives in
`timezones/utils.py`, which is absent from the sources.  Per the spec's
`validate_max_length` contract: at field-definition time, fail with
`ConfigurationError` when `max_length` is smaller than the length of the
longest string among the known identifiers. -/
def validate_timezone_max_length (maxLength : Nat) (known : List String) :
    Except ConfigurationError Unit :=
  match known.find? (fun s => maxLength < s.length) with
  | some s => .error (.maxLengthTooSmall s maxLength)
  | none => .ok ()

/-! ## Concrete zones for witnesses and examples

The offset data models the external pytz database for the dates the
examples touch (the 2021 US DST window: it begins 2021-03-14 07:00 UTC =
`1615705200` and ends 2021-11-07 06:00 UTC = `1636264800`; in wall-clock
terms, 2021-03-14 03:00 EDT = `1615690800` to 2021-11-07 01:00 EST =
`1636246800`). -/

/-- The UTC zone: zero offset everywhere. -/
def utcTz : Tz :=
  { name := "UTC", utcOffset := fun _ => 0, localOffset := fun _ => 0 }

/-- `America/New_York`, modelled for 2021: EDT (−4 h) inside the DST
window, EST (−5 h) outside it. -/
def americaNewYork : Tz :=
  { name := "America/New_York"
    utcOffset := fun t =>
      if 1615705200 ≤ t ∧ t < 1636264800 then -14400 else -18000
    localOffset := fun w =>
      if 1615690800 ≤ w ∧ w < 1636246800 then -14400 else -18000 }

/-- An environment with UTC as the process default zone and a zone
database knowing UTC and America/New_York. -/
def envUTC : PytzEnv :=
  { default_tz := utcTz
    db := fun s =>
      if s = "UTC" then some utcTz
      else if s = "America/New_York" then some americaNewYork
      else none }

end Timezones

namespace Timezones

/-! ## Helper lemmas -/

/-- Converting any value to the default zone yields an aware value carrying
the default zone's name. -/
theorem convertToDefault_aware (d : Tz) (v : DateTime) :
    ∃ wl o, convertToDefault d v = .aware wl o d.name := by
  cases v with
  | naive w => exact ⟨w, d.localOffset w, rfl⟩
  | aware w o z => exact ⟨_, _, rfl⟩

/-- `astimezone` preserves the absolute point in time. -/
theorem absSeconds_astimezoneAware (d tz : Tz) (w o : Int) :
    absSeconds d (astimezoneAware w o tz) = w - o := by
  simp [absSeconds, astimezoneAware]

/-- Conversion to the default zone preserves the absolute point in time (a
naive input being read as a default-zone wall clock). -/
theorem absSeconds_convertToDefault (d : Tz) (v : DateTime) :
    absSeconds d (convertToDefault d v) = absSeconds d v := by
  cases v with
  | naive w => simp [convertToDefault, Tz.localize, absSeconds]
  | aware w o z =>
    simpa [convertToDefault] using absSeconds_astimezoneAware d d w o

/-- Closed form of `get_db_prep_save` on a present value, no connection. -/
theorem get_db_prep_save_some_noconn (d : Tz) (v : DateTime) :
    get_db_prep_save d none (some v) = .ok (some (convertToDefault d v)) :=
  rfl

/-- Closed form of `get_db_prep_save` on a present value with a
connection. -/
theorem get_db_prep_save_some_conn (d : Tz) (c : Connection) (v : DateTime) :
    get_db_prep_save d (some c) (some v) =
      if c.rejects (some (convertToDefault d v)) then
        if c.rejects (some (stripTzinfo (convertToDefault d v))) then
          .error .valueError
        else
          .ok (some (stripTzinfo (convertToDefault d v)))
      else
        .ok (some (convertToDefault d v)) := by
  simp only [get_db_prep_save, superGetDbPrepSave, Option.map_some']
  split_ifs <;> rfl

/-- Closed form of `get_db_prep_save` on an absent value, no connection. -/
theorem get_db_prep_save_none_noconn (d : Tz) :
    get_db_prep_save d none none = .ok none :=
  rfl

/-- Closed form of `get_db_prep_save` on an absent value with a
connection. -/
theorem get_db_prep_save_none_conn (d : Tz) (c : Connection) :
    get_db_prep_save d (some c) none =
      if c.rejects none then .error .attributeError else .ok none := by
  simp only [get_db_prep_save, superGetDbPrepSave, Option.map_none']
  split_ifs <;> rfl

/-- When the probe accepts the converted value, `get_db_prep_save` returns
it unchanged. -/
theorem save_no_reject (d : Tz) (conn : Option Connection) (v : DateTime)
    (hacc : ∀ c, conn = some c →
      c.rejects (some (convertToDefault d v)) = false) :
    get_db_prep_save d conn (some v) = .ok (some (convertToDefault d v)) := by
  cases conn with
  | none => rfl
  | some c => rw [get_db_prep_save_some_conn, if_neg (by simp [hacc c rfl])]

end Timezones

namespace Timezones

/-! ## Concrete connections for witnesses -/

/-- An adapter whose probe accepts every value. -/
def acceptAllConn : Connection := ⟨fun _ => false⟩

/-- An adapter whose probe rejects exactly the aware values (the MySQL
behavior the source's comment mentions). -/
def rejectAwareConn : Connection :=
  ⟨fun v => match v with
    | some (.aware _ _ _) => true
    | _ => false⟩

/-- A Dynamic-policy callable that raises `ValueError` when invoked. -/
def raisingCallable : Unit → Except PyExc DynRet := fun _ => .error .valueError

/-! ## Claims -/

/-- Claim C1: whenever `get_db_prep_save` hands a present value to the
persistence layer, that value is either the input converted to an aware
instant in the process default zone, or that same converted instant with
the zone stripped — a naive value whose wall clock is in default-zone
terms; never a naive instant read in any other zone. -/
theorem save_value_in_default_zone (d : Tz) (conn : Option Connection)
    (v w : DateTime)
    (h : get_db_prep_save d conn (some v) = .ok (some w)) :
    ∃ wl o, convertToDefault d v = .aware wl o d.name ∧
      (w = .aware wl o d.name ∨ w = .naive wl) := by
  obtain ⟨wl, o, hc⟩ := convertToDefault_aware d v
  refine ⟨wl, o, hc, ?_⟩
  cases conn with
  | none =>
    rw [get_db_prep_save_some_noconn, hc] at h
    simp only [Except.ok.injEq, Option.some.injEq] at h
    exact Or.inl h.symm
  | some c =>
    rw [get_db_prep_save_some_conn, hc] at h
    by_cases hr : c.rejects (some (DateTime.aware wl o d.name)) = true
    · rw [if_pos hr] at h
      by_cases hr2 :
          c.rejects (some (stripTzinfo (DateTime.aware wl o d.name))) = true
      · rw [if_pos hr2] at h
        exact Except.noConfusion h
      · rw [if_neg hr2] at h
        simp only [stripTzinfo, Except.ok.injEq, Option.some.injEq] at h
        exact Or.inr h.symm
    · rw [if_neg hr] at h
      simp only [Except.ok.injEq, Option.some.injEq] at h
      exact Or.inl h.symm

/-- Witness for C1 at a concrete input. -/
theorem save_value_in_default_zone_witness :
    ∃ wl o, convertToDefault utcTz (DateTime.naive 0) = .aware wl o utcTz.name ∧
      (DateTime.aware 0 0 "UTC" = .aware wl o utcTz.name ∨
       DateTime.aware 0 0 "UTC" = .naive wl) :=
  save_value_in_default_zone utcTz none (.naive 0) (.aware 0 0 "UTC") rfl

/-- Claim C2, counterexample: a Dynamic policy whose callable raises lets
the exception escape `set_dtz_field`; the value is not set to a
default-zone fallback. -/
theorem dyn_raise_escapes :
    set_dtz_field envUTC (.dyn raisingCallable) (some (.naive 0)) =
      .error .valueError ∧
    ¬ ∃ r, set_dtz_field envUTC (.dyn raisingCallable) (some (.naive 0)) =
      .ok r := by
  refine ⟨rfl, ?_⟩
  rintro ⟨r, hr⟩
  rw [show set_dtz_field envUTC (.dyn raisingCallable) (some (.naive 0)) =
      .error .valueError from rfl] at hr
  exact Except.noConfusion hr

/-- Claim C2, amended: for a Dynamic policy, if the callable returns
normally with `None` or with a string that is not a known IANA identifier,
the resolved display zone is the process default zone (the conversion
behaves exactly like a Static policy on the default zone); but if the
callable itself raises, the exception propagates out of the setter. -/
theorem dyn_fallback_amended (env : PytzEnv) (dt : DateTime)
    (f : Unit → Except PyExc DynRet) :
    (∀ e, f () = .error e →
      set_dtz_field env (.dyn f) (some dt) = .error e) ∧
    (f () = .ok .noneV →
      set_dtz_field env (.dyn f) (some dt) =
        set_dtz_field env (.tzobj env.default_tz) (some dt)) ∧
    (∀ s, f () = .ok (.str s) → env.db s = none →
      set_dtz_field env (.dyn f) (some dt) =
        set_dtz_field env (.tzobj env.default_tz) (some dt)) := by
  refine ⟨?_, ?_, ?_⟩ <;> intros <;> cases dt <;> simp_all [set_dtz_field]

/-- Witness for the amended C2 at a concrete input. -/
theorem dyn_fallback_amended_witness :
    set_dtz_field envUTC (.dyn (fun _ => .ok .noneV)) (some (.naive 0)) =
      set_dtz_field envUTC (.tzobj envUTC.default_tz) (some (.naive 0)) :=
  (dyn_fallback_amended envUTC (.naive 0) (fun _ => .ok .noneV)).2.1 rfl

/-- Claim C3: the Relational branch of `set_dtz_field` evaluates
`model_instance._get_pk_val()` where `model_instance` is an unbound name,
so it raises `NameError` before any primary-key lookup can happen — the
code never reaches the fallback to the default zone. -/
theorem relational_raises_nameerror :
    set_dtz_field envUTC (.relname "user_tz") (some (.naive 1615802400)) =
      .error .nameError := rfl

/-- Claim C4: when the probe rejects the converted aware value, the value
is degraded by stripping its zone (a naive instant in default-zone wall
terms) and handed to the base class once more; the save succeeds with the
degraded value exactly when the probe accepts it, and fails with the
adapter's `ValueError` exactly when the degraded form is also rejected. -/
theorem save_strip_retry (d : Tz) (c : Connection) (v : DateTime)
    (h : c.rejects (some (convertToDefault d v)) = true) :
    get_db_prep_save d (some c) (some v) =
      if c.rejects (some (stripTzinfo (convertToDefault d v))) then
        .error .valueError
      else
        .ok (some (stripTzinfo (convertToDefault d v))) := by
  rw [get_db_prep_save_some_conn, if_pos h]

/-- Witness for C4 at a concrete input. -/
theorem save_strip_retry_witness :
    get_db_prep_save utcTz (some rejectAwareConn) (some (.naive 0)) =
      if rejectAwareConn.rejects
          (some (stripTzinfo (convertToDefault utcTz (.naive 0)))) then
        .error .valueError
      else
        .ok (some (stripTzinfo (convertToDefault utcTz (.naive 0)))) :=
  save_strip_retry utcTz rejectAwareConn (.naive 0) rfl

/-- Claim C5: storing an instant with `get_db_prep_save` and reading it
back through the property setter with the same Static policy yields an
instant denoting the same absolute point in time, provided the capability
probe accepted the aware value (the carve-out the claim makes for
deliberate zone-stripping). -/
theorem static_roundtrip (env : PytzEnv) (conn : Option Connection)
    (z : Tz) (v w : DateTime)
    (hsave : get_db_prep_save env.default_tz conn (some v) = .ok (some w))
    (hacc : ∀ c, conn = some c →
      c.rejects (some (convertToDefault env.default_tz v)) = false) :
    ∃ r, set_dtz_field env (.tzobj z) (some w) = .ok (some r) ∧
      absSeconds env.default_tz r = absSeconds env.default_tz v := by
  have h1 := save_no_reject env.default_tz conn v hacc
  rw [hsave] at h1
  simp only [Except.ok.injEq, Option.some.injEq] at h1
  obtain ⟨wl, o, hc⟩ := convertToDefault_aware env.default_tz v
  refine ⟨astimezoneAware wl o z, ?_, ?_⟩
  · rw [h1, hc]
    simp [set_dtz_field]
  · rw [absSeconds_astimezoneAware]
    have h3 := absSeconds_convertToDefault env.default_tz v
    rw [hc] at h3
    simpa [absSeconds] using h3

/-- Witness for C5 at a concrete input. -/
theorem static_roundtrip_witness :
    ∃ r, set_dtz_field envUTC (.tzobj americaNewYork)
        (some (.aware 1615802400 0 "UTC")) = .ok (some r) ∧
      absSeconds envUTC.default_tz r =
        absSeconds envUTC.default_tz (.naive 1615802400) :=
  static_roundtrip envUTC none americaNewYork (.naive 1615802400)
    (.aware 1615802400 0 "UTC") rfl (fun c h => by cases h)

/-- Claim C6: with UTC as the process default zone and a Static
America/New_York policy, the naive input 2021-03-15T10:00:00
(`1615802400`) is stored as the aware instant 2021-03-15T10:00:00+00:00,
and reading that stored instant back yields 2021-03-15T06:00:00−04:00
(wall `1615788000`, offset −14400). -/
theorem example_utc_newyork :
    get_db_prep_save utcTz none (some (.naive 1615802400)) =
      .ok (some (.aware 1615802400 0 "UTC")) ∧
    set_dtz_field envUTC (.tzobj americaNewYork)
        (some (.aware 1615802400 0 "UTC")) =
      .ok (some (.aware 1615788000 (-14400) "America/New_York")) :=
  ⟨rfl, rfl⟩

/-- Claim C7: `TimeZoneField.to_python` is idempotent on valid IANA
identifiers — coercing the result of a prior coercion returns the same
value. -/
theorem to_python_idempotent (known : List String) (z : String)
    (hz : z ∈ known) :
    to_python known (to_python known (some (.str z))) =
      to_python known (some (.str z)) := by
  by_cases hzero : z = ""
  · subst hzero
    simp [to_python, charfieldToPython, coerce_timezone_value]
  · simp [to_python, charfieldToPython, coerce_timezone_value, hz, hzero]

/-- Witness for C7 at a concrete input. -/
theorem to_python_idempotent_witness :
    to_python ["UTC", "America/New_York"]
        (to_python ["UTC", "America/New_York"] (some (.str "UTC"))) =
      to_python ["UTC", "America/New_York"] (some (.str "UTC")) :=
  to_python_idempotent ["UTC", "America/New_York"] "UTC" (by simp)

/-- Claim C8: `validate_timezone_max_length` fails with a
`ConfigurationError` exactly when some known identifier is longer than
`max_length`; in particular it fails on `(5, ["America/New_York"])`. -/
theorem validate_max_length_spec :
    (∀ (m : Nat) (ks : List String),
      (∃ e, validate_timezone_max_length m ks = .error e) ↔
        ∃ s ∈ ks, m < s.length) ∧
    (∃ e, validate_timezone_max_length 5 ["America/New_York"] = .error e) := by
  constructor
  · intro m ks
    unfold validate_timezone_max_length
    constructor
    · rintro ⟨e, he⟩
      cases hf : ks.find? (fun s => m < s.length) with
      | none => rw [hf] at he; cases he
      | some s =>
        refine ⟨s, List.mem_of_find?_eq_some hf, ?_⟩
        simpa using List.find?_some hf
    · rintro ⟨s, hs, hlen⟩
      cases hf : ks.find? (fun s => m < s.length) with
      | none =>
        have := List.find?_eq_none.mp hf s hs
        simp [hlen] at this
      | some t => exact ⟨.maxLengthTooSmall t m, rfl⟩
  · exact ⟨.maxLengthTooSmall "America/New_York" 5, rfl⟩

/-- Claim C9: `get_db_prep_lookup` is not total on absent values — a
`None` input raises `AttributeError` (it reads `value.tzinfo` with no
guard) while every present value succeeds; `get_db_prep_save`, by
contrast, accepts `None`. -/
theorem lookup_requires_value (d : Tz) (lt : String) :
    get_db_prep_lookup d lt none = .error .attributeError ∧
    get_db_prep_save d none none = .ok none ∧
    ∀ v, ∃ r, get_db_prep_lookup d lt (some v) = .ok r :=
  ⟨rfl, rfl, fun v => ⟨some (convertToDefault d v), rfl⟩⟩

/-- Claim C10: a `None` value is passed through `get_db_prep_save` to the
base persistence path unchanged — no localization, conversion, or
stripping happens (given the adapter's probe does not reject `None`,
which Django's never does). -/
theorem save_none_passthrough (d : Tz) (conn : Option Connection)
    (hacc : ∀ c, conn = some c → c.rejects none = false) :
    get_db_prep_save d conn none = .ok none := by
  cases conn with
  | none => rfl
  | some c => rw [get_db_prep_save_none_conn, if_neg (by simp [hacc c rfl])]

/-- Witness for C10 at a concrete input. -/
theorem save_none_passthrough_witness :
    get_db_prep_save utcTz (some acceptAllConn) none = .ok none :=
  save_none_passthrough utcTz (some acceptAllConn)
    (fun c h => by cases h; rfl)

end Timezones
